import Mathlib

/-!
Verification development for the cppcheck leak checker `CheckLeakAutoVar`
(lib/checkleakautovar.cpp).  The per-variable allocation-state store
(`std::map<int, VarInfo::AllocInfo>`) is embedded as an association list
keyed by variable id; tokens are embedded as numeric ids (0 = null);
library lookups (`Settings::library`) are passed in as explicit data.
-/

set_option autoImplicit false

universe u

/-! ## Association-list model of `std::map<int, T>` and `std::set<int>` -/

/-- Lookup in a `std::map<int, T>` (`m.find(k)`), returning the mapped value. -/
def findValue? {β : Type u} (k : Nat) : List (Nat × β) → Option β
  | [] => none
  | kv :: rest => if kv.1 = k then some kv.2 else findValue? k rest

/-- `std::map::erase(k)`: remove the entry (entries) with key `k`. -/
def eraseKey {β : Type u} (k : Nat) : List (Nat × β) → List (Nat × β)
  | [] => []
  | kv :: rest => if kv.1 = k then eraseKey k rest else kv :: eraseKey k rest

/-- `m[k] = v` (`std::map::operator[]` followed by assignment): replace the
entry for `k` if present, otherwise append a new entry. -/
def setValue {β : Type u} (k : Nat) (v : β) : List (Nat × β) → List (Nat × β)
  | [] => [(k, v)]
  | kv :: rest => if kv.1 = k then (k, v) :: rest else kv :: setValue k v rest

/-- `std::map::insert(first, last)`: insert each entry of the range whose key
is not already present; on key collision the EXISTING entry is kept. -/
def insertEntries {β : Type u} (m : List (Nat × β)) : List (Nat × β) → List (Nat × β)
  | [] => m
  | kv :: rest => insertEntries (if (findValue? kv.1 m).isSome then m else m ++ [kv]) rest

/-- `std::set<int>::insert`. -/
def insertId (s : List Nat) (k : Nat) : List Nat :=
  if k ∈ s then s else s ++ [k]

/-- `std::set<int>::erase`. -/
def eraseId (k : Nat) : List Nat → List Nat
  | [] => []
  | x :: rest => if x = k then eraseId k rest else x :: eraseId k rest

/-! ## Data model: `VarInfo::AllocStatus`, `VarInfo::AllocInfo`, `VarInfo` -/

/-- Hardcoded allocation family for `new` (checkleakautovar.cpp line 56). -/
def NEW : Int := -1

/-- Hardcoded allocation family for `new[]` (checkleakautovar.cpp line 55). -/
def NEW_ARRAY : Int := -2

/-- `VarInfo::AllocStatus`: `REALLOC`, `OWNED`, `DEALLOC`, `ALLOC`, `NOALLOC`. -/
inductive AllocStatus where
  | realloc
  | owned
  | dealloc
  | alloc
  | noalloc
  deriving DecidableEq, Repr

/-- `VarInfo::AllocInfo`: allocation family (`type`), status, the token that
produced the status (`allocTok`, 0 = null) and the variable id this record was
reallocated from (`reallocedFromType`).  Default construction gives family 0,
status `NOALLOC`, null token. -/
structure AllocInfo where
  type : Int := 0
  status : AllocStatus := .noalloc
  allocTok : Nat := 0
  reallocedFromType : Nat := 0
  deriving DecidableEq, Repr

/-- Modelled from the spec: a record is "managed" when its status is other
than `Unallocated`/`Allocated`, i.e. one of `Deallocated`, `Reallocated`,
`ExternallyOwned` (`VarInfo::AllocInfo::managed`, declared in
checkleakautovar.h which is not part of the provided sources). -/
def AllocInfo.managed (a : AllocInfo) : Bool :=
  match a.status with
  | .dealloc | .owned | .realloc => true
  | .alloc | .noalloc => false

/-- `VarInfo::Usage`: `USED` or `NORET`. -/
inductive Usage where
  | used
  | noret
  deriving DecidableEq, Repr

/-- The diagnostics the checker can emit, each carrying its token ids. -/
inductive Diag where
  | leak (tok varId : Nat)
  | mismatch (deallocTok allocTok varId : Nat)
  | doubleFree (tok prevFreeTok varId : Nat)
  | deallocUse (tok : Nat)
  | deallocReturn (tok deallocTok : Nat)
  | configInfo (tok : Nat)
  deriving DecidableEq, Repr

/-- The analysis state `VarInfo`: allocation-state records keyed by variable
id, "possible usage" entries (token, usage kind) keyed by variable id, the
set of conditionally allocated ids, and the set of referenced ids. -/
structure VarInfo where
  alloctype : List (Nat × AllocInfo) := []
  possibleUsage : List (Nat × (Nat × Usage)) := []
  conditionalAlloc : List Nat := []
  referenced : List Nat := []
  deriving DecidableEq, Repr

/-- Modelled from the spec: `VarInfo::erase(varid)` (declared in
checkleakautovar.h, not part of the provided sources) drops every trace of
one variable id from the analysis state. -/
def VarInfo.erase (vi : VarInfo) (varid : Nat) : VarInfo :=
  { alloctype := eraseKey varid vi.alloctype
    possibleUsage := eraseKey varid vi.possibleUsage
    conditionalAlloc := eraseId varid vi.conditionalAlloc
    referenced := eraseId varid vi.referenced }

/-- Modelled from the spec: `VarInfo::clear()` empties the whole analysis
state (used for the bail-out paths "abandon tracking"). -/
def VarInfo.clear (_ : VarInfo) : VarInfo := {}

/-- Modelled from the spec: `VarInfo::reallocToAlloc(varid)` converts a
`Reallocated` status back to `Allocated` for one variable id (declared in
checkleakautovar.h, not part of the provided sources). -/
def VarInfo.reallocToAlloc (vi : VarInfo) (varid : Nat) : VarInfo :=
  match findValue? varid vi.alloctype with
  | some a =>
    if a.status = .realloc then
      { vi with alloctype := setValue varid { a with status := .alloc } vi.alloctype }
    else vi
  | none => vi

/-! ## `CheckLeakAutoVar::changeAllocStatus` (checkleakautovar.cpp 959-994)

Parameters standing for token/AST/library context:
`isAllocFuncTok t` models `mSettings->library.getAllocFuncInfo(t) != nullptr`
(with `t = 0` the null token); `argPrecededByAmp` models
`arg->strAt(-1) == "&"`; `tokInReturn` models
`Token::simpleMatch(tok->astTop(), "return")`. -/

def changeAllocStatus (isAllocFuncTok : Nat → Bool) (varInfo : VarInfo)
    (allocation : AllocInfo) (tok argVarId : Nat)
    (argPrecededByAmp tokInReturn : Bool) : VarInfo × List Diag :=
  match findValue? argVarId varInfo.alloctype with
  | some var =>
    -- bailout if function is also allocating (argument might move to the
    -- return value, such as in fdopen)
    if allocation.allocTok ≠ 0 ∧ isAllocFuncTok allocation.allocTok then
      (varInfo.erase argVarId, [])
    else if allocation.status = .noalloc then
      -- possible usage
      let vi := { varInfo with
                  possibleUsage := setValue argVarId (tok, Usage.used) varInfo.possibleUsage }
      if var.status = .dealloc ∧ argPrecededByAmp then (vi.erase argVarId, [])
      else (vi, [])
    else if var.managed then
      ({ varInfo with
         alloctype := setValue argVarId { var with status := allocation.status } varInfo.alloctype },
       [Diag.doubleFree tok var.allocTok argVarId])
    else if var.type ≠ allocation.type ∧ var.type ≠ 0 then
      -- mismatching allocation and deallocation
      (varInfo.erase argVarId, [Diag.mismatch tok var.allocTok argVarId])
    else
      -- deallocation
      ({ varInfo with
         alloctype := setValue argVarId
           { var with status := allocation.status, type := allocation.type,
                      allocTok := allocation.allocTok } varInfo.alloctype },
       [])
  | none =>
    if allocation.status ≠ .noalloc ∧ allocation.status ≠ .owned ∧ tokInReturn = false then
      ({ varInfo with
         alloctype := setValue argVarId
           { type := allocation.type, status := .dealloc, allocTok := tok,
             reallocedFromType := 0 } varInfo.alloctype },
       [])
    else (varInfo, [])

/-! ## Basic map lemmas -/

theorem findValue_setValue_self {β : Type u} (m : List (Nat × β)) (k : Nat) (v : β) :
    findValue? k (setValue k v m) = some v := by
  induction m with
  | nil => simp [setValue, findValue?]
  | cons kv rest ih =>
    by_cases h : kv.1 = k
    · simp [setValue, h, findValue?]
    · simp [setValue, h, findValue?, ih]

theorem findValue_setValue_ne {β : Type u} (m : List (Nat × β)) (k j : Nat) (v : β)
    (hne : j ≠ k) : findValue? j (setValue k v m) = findValue? j m := by
  induction m with
  | nil => simp [setValue, findValue?, Ne.symm hne]
  | cons kv rest ih =>
    by_cases h : kv.1 = k
    · subst h
      simp [setValue, findValue?, Ne.symm hne]
    · simp [setValue, h, findValue?, ih]

theorem findValue_eraseKey_self {β : Type u} (m : List (Nat × β)) (k : Nat) :
    findValue? k (eraseKey k m) = none := by
  induction m with
  | nil => simp [eraseKey, findValue?]
  | cons kv rest ih =>
    by_cases h : kv.1 = k
    · simp [eraseKey, h, ih]
    · simp [eraseKey, h, findValue?, ih]

theorem findValue_eraseKey_ne {β : Type u} (m : List (Nat × β)) (k j : Nat)
    (hne : j ≠ k) : findValue? j (eraseKey k m) = findValue? j m := by
  induction m with
  | nil => simp [eraseKey]
  | cons kv rest ih =>
    by_cases h : kv.1 = k
    · subst h
      simp [eraseKey, findValue?, Ne.symm hne, ih]
    · simp [eraseKey, h, findValue?, ih]

/-! ## Claims C4 and C6: `changeAllocStatus` behavior -/

/-- C4: refuted as stated.  An unambiguous deallocation (`status = DEALLOC`,
outside a `return` expression) on a variable with no allocation-state record
does NOT "do nothing": checkleakautovar.cpp lines 988-993 install a fresh
`Deallocated` record for the variable.  Concretely, `free(p)` on untracked
`p` (variable id 5, free-token 21, family 3) installs
`p ↦ (type 3, DEALLOC, tok 21)`. -/
theorem C4_counterexample :
    findValue? 5 ((changeAllocStatus (fun _ => false) {}
        { type := 3, status := .dealloc, allocTok := 20, reallocedFromType := 0 }
        21 5 false false).1.alloctype)
      = some { type := 3, status := .dealloc, allocTok := 21, reallocedFromType := 0 } ∧
    findValue? 5 (VarInfo.alloctype {}) = none := by
  constructor
  · rfl
  · rfl

/-- C4 (amended): a deallocation event reaching `changeAllocStatus` for a
variable `v` with no allocation-state record emits no diagnostic, records no
"possible usage" note, and leaves every other variable's record unchanged;
but instead of doing nothing for `v`, it installs a fresh `Deallocated`
record for `v` whenever the event is a real deallocation (`status` neither
`NOALLOC` nor `OWNED`) occurring outside a `return` expression; otherwise
nothing at all happens (checkleakautovar.cpp lines 988-993). -/
theorem C4_untracked_dealloc_amended
    (isAllocFuncTok : Nat → Bool) (varInfo : VarInfo) (allocation : AllocInfo)
    (tok argVarId : Nat) (amp inRet : Bool)
    (hnone : findValue? argVarId varInfo.alloctype = none) :
    (changeAllocStatus isAllocFuncTok varInfo allocation tok argVarId amp inRet).2 = [] ∧
    (changeAllocStatus isAllocFuncTok varInfo allocation tok argVarId amp inRet).1.possibleUsage
      = varInfo.possibleUsage ∧
    (∀ w, w ≠ argVarId →
      findValue? w (changeAllocStatus isAllocFuncTok varInfo allocation tok argVarId amp inRet).1.alloctype
        = findValue? w varInfo.alloctype) ∧
    findValue? argVarId (changeAllocStatus isAllocFuncTok varInfo allocation tok argVarId amp inRet).1.alloctype
      = (if allocation.status ≠ .noalloc ∧ allocation.status ≠ .owned ∧ inRet = false
         then some { type := allocation.type, status := .dealloc, allocTok := tok,
                     reallocedFromType := 0 }
         else none) := by
  by_cases hc : allocation.status ≠ AllocStatus.noalloc ∧ allocation.status ≠ AllocStatus.owned ∧ inRet = false
  · simp only [changeAllocStatus, hnone, if_pos hc]
    exact ⟨trivial, trivial, fun w hw => findValue_setValue_ne _ _ _ _ hw,
           findValue_setValue_self _ _ _⟩
  · simp only [changeAllocStatus, hnone, if_neg hc]
    exact ⟨trivial, trivial, fun w _ => trivial, trivial⟩

/-- Witness for C4 (amended): concrete run with `free(p)` (family 3, token
21) on untracked variable id 5 in the empty state; variable 3's lookup is
untouched and the event emits nothing. -/
theorem C4_untracked_dealloc_amended_witness :
    ((changeAllocStatus (fun _ => false) {}
        { type := 3, status := .dealloc, allocTok := 20, reallocedFromType := 0 }
        21 5 false false).2 = [] ∧
     findValue? 3 (changeAllocStatus (fun _ => false) {}
        { type := 3, status := .dealloc, allocTok := 20, reallocedFromType := 0 }
        21 5 false false).1.alloctype = findValue? 3 (VarInfo.alloctype {}) ∧
     findValue? 5 (changeAllocStatus (fun _ => false) {}
        { type := 3, status := .dealloc, allocTok := 20, reallocedFromType := 0 }
        21 5 false false).1.alloctype
       = (if (AllocStatus.dealloc ≠ .noalloc ∧ AllocStatus.dealloc ≠ .owned ∧ false = false)
          then some { type := 3, status := .dealloc, allocTok := 21, reallocedFromType := 0 }
          else none)) :=
  ⟨(C4_untracked_dealloc_amended (fun _ => false) {}
      { type := 3, status := .dealloc, allocTok := 20, reallocedFromType := 0 }
      21 5 false false rfl).1,
   (C4_untracked_dealloc_amended (fun _ => false) {}
      { type := 3, status := .dealloc, allocTok := 20, reallocedFromType := 0 }
      21 5 false false rfl).2.2.1 3 (by decide),
   (C4_untracked_dealloc_amended (fun _ => false) {}
      { type := 3, status := .dealloc, allocTok := 20, reallocedFromType := 0 }
      21 5 false false rfl).2.2.2⟩

/-- C6: confirmed.  A deallocation event on a variable whose record is
already managed (`DEALLOC`/`REALLOC`/`OWNED`) emits exactly one `DoubleFree`
diagnostic (hence zero `Leak` diagnostics), overwrites the record's status
with the most recent deallocation's status, and keeps the variable tracked
(checkleakautovar.cpp lines 975-977). -/
theorem C6_double_free_managed
    (isAllocFuncTok : Nat → Bool) (varInfo : VarInfo) (allocation : AllocInfo)
    (tok argVarId : Nat) (amp inRet : Bool) (var : AllocInfo)
    (hfound : findValue? argVarId varInfo.alloctype = some var)
    (hmanaged : var.managed = true)
    (hdealloc : allocation.status = .dealloc)
    (hplain : ¬(allocation.allocTok ≠ 0 ∧ isAllocFuncTok allocation.allocTok)) :
    (changeAllocStatus isAllocFuncTok varInfo allocation tok argVarId amp inRet).2
      = [Diag.doubleFree tok var.allocTok argVarId] ∧
    findValue? argVarId (changeAllocStatus isAllocFuncTok varInfo allocation tok argVarId amp inRet).1.alloctype
      = some { var with status := allocation.status } := by
  simp only [changeAllocStatus, hfound]
  rw [if_neg hplain, hdealloc]
  rw [if_neg (by simp : ¬(AllocStatus.dealloc = AllocStatus.noalloc)), if_pos hmanaged]
  exact ⟨rfl, findValue_setValue_self _ _ _⟩

/-- Witness for C6: `p` (variable id 4) already freed at token 10 with
family 2, freed again at token 30: one `DoubleFree`, record stays with
status `DEALLOC`. -/
theorem C6_double_free_managed_witness :
    ((changeAllocStatus (fun _ => false)
        { alloctype := [(4, { type := 2, status := .dealloc, allocTok := 10, reallocedFromType := 0 })] }
        { type := 2, status := .dealloc, allocTok := 0, reallocedFromType := 0 }
        30 4 false false).2 = [Diag.doubleFree 30 10 4] ∧
     findValue? 4 (changeAllocStatus (fun _ => false)
        { alloctype := [(4, { type := 2, status := .dealloc, allocTok := 10, reallocedFromType := 0 })] }
        { type := 2, status := .dealloc, allocTok := 0, reallocedFromType := 0 }
        30 4 false false).1.alloctype
       = some { type := 2, status := .dealloc, allocTok := 10, reallocedFromType := 0 }) :=
  C6_double_free_managed (fun _ => false)
    { alloctype := [(4, { type := 2, status := .dealloc, allocTok := 10, reallocedFromType := 0 })] }
    { type := 2, status := .dealloc, allocTok := 0, reallocedFromType := 0 }
    30 4 false false
    { type := 2, status := .dealloc, allocTok := 10, reallocedFromType := 0 }
    rfl rfl rfl (by simp)

/-! ## Claim C7: `CheckLeakAutoVar::changeAllocStatusIfRealloc`
(checkleakautovar.cpp 938-956) -/

/-- `Library::AllocFunc` data relevant for a realloc-style function:
allocation family (`groupId`), which argument receives the result (`arg`,
-1 = return value) and the 1-based position of the reallocated source
argument (`reallocArg`). -/
structure ReallocFunc where
  groupId : Int
  arg : Int
  reallocArg : Nat
  deriving DecidableEq, Repr

/-- `CheckLeakAutoVar::changeAllocStatusIfRealloc`: `reallocFuncInfo` models
`mSettings->library.getReallocFuncInfo(fTok)`, `nArgs` models
`numberOfArguments(fTok)`, `argVarId` the variable id of
`getArguments(fTok).at(f->reallocArg - 1)`, `retVarId` the variable id of
`retTok`. -/
def changeAllocStatusIfRealloc (reallocFuncInfo : Option ReallocFunc)
    (nArgs : Nat) (fTok argVarId retVarId : Nat)
    (alloctype : List (Nat × AllocInfo)) : List (Nat × AllocInfo) × List Diag :=
  match reallocFuncInfo with
  | some f =>
    if f.arg = -1 ∧ 0 < f.reallocArg ∧ f.reallocArg ≤ nArgs then
      let step1 : List (Nat × AllocInfo) × List Diag :=
        match findValue? argVarId alloctype with
        | some argAlloc =>
          (setValue argVarId { argAlloc with status := .realloc, allocTok := fTok } alloctype,
           if argAlloc.type ≠ 0 ∧ argAlloc.type ≠ f.groupId
           then [Diag.mismatch fTok argAlloc.allocTok argVarId] else [])
        | none => (alloctype, [])
      (setValue retVarId
        { type := f.groupId, status := .alloc, allocTok := fTok,
          reallocedFromType := argVarId } step1.1,
       step1.2)
    else (alloctype, [])
  | none => (alloctype, [])

/-- C7: confirmed.  A recognized realloc-style assignment
`v = realloc_like(arg)` where `arg` is tracked with a nonzero family
different from the realloc's family emits one `Mismatch` diagnostic against
`arg`, sets `arg`'s status to `Reallocated`, and installs a fresh
`Allocated` record for `v` carrying the realloc's family and the
`reallocatedFrom` back-reference (`reallocedFromType`) to `arg`'s variable
id (checkleakautovar.cpp lines 938-956; the hypothesis `retVarId ≠ argVarId`
keeps the two records distinct — for `p = realloc(p, n)` the later write to
`v`'s record overwrites the `Reallocated` status of the shared record). -/
theorem C7_realloc_mismatch_and_transition
    (f : ReallocFunc) (nArgs fTok argVarId retVarId : Nat)
    (alloctype : List (Nat × AllocInfo)) (argAlloc : AllocInfo)
    (hf : f.arg = -1) (hra : 0 < f.reallocArg) (hrb : f.reallocArg ≤ nArgs)
    (hfound : findValue? argVarId alloctype = some argAlloc)
    (htype : argAlloc.type ≠ 0) (hdiff : argAlloc.type ≠ f.groupId)
    (hne : retVarId ≠ argVarId) :
    (changeAllocStatusIfRealloc (some f) nArgs fTok argVarId retVarId alloctype).2
      = [Diag.mismatch fTok argAlloc.allocTok argVarId] ∧
    findValue? argVarId (changeAllocStatusIfRealloc (some f) nArgs fTok argVarId retVarId alloctype).1
      = some { argAlloc with status := .realloc, allocTok := fTok } ∧
    findValue? retVarId (changeAllocStatusIfRealloc (some f) nArgs fTok argVarId retVarId alloctype).1
      = some { type := f.groupId, status := .alloc, allocTok := fTok,
               reallocedFromType := argVarId } := by
  have hc : f.arg = -1 ∧ 0 < f.reallocArg ∧ f.reallocArg ≤ nArgs := ⟨hf, hra, hrb⟩
  have hd : argAlloc.type ≠ 0 ∧ argAlloc.type ≠ f.groupId := ⟨htype, hdiff⟩
  simp only [changeAllocStatusIfRealloc, if_pos hc, hfound, if_pos hd]
  refine ⟨by trivial, ?_, ?_⟩
  · rw [findValue_setValue_ne _ _ _ _ (Ne.symm hne)]
    exact findValue_setValue_self _ _ _
  · exact findValue_setValue_self _ _ _

/-- Witness for C7: `q = realloc2(p, n)` with `p` (id 5) tracked as family
1 allocated at token 10, the realloc (token 40) of family 2 taking its
source in argument 1 and returning into `q` (id 6). -/
theorem C7_realloc_mismatch_and_transition_witness :
    ((changeAllocStatusIfRealloc (some { groupId := 2, arg := -1, reallocArg := 1 })
        2 40 5 6 [(5, { type := 1, status := .alloc, allocTok := 10, reallocedFromType := 0 })]).2
      = [Diag.mismatch 40 10 5] ∧
     findValue? 5 (changeAllocStatusIfRealloc (some { groupId := 2, arg := -1, reallocArg := 1 })
        2 40 5 6 [(5, { type := 1, status := .alloc, allocTok := 10, reallocedFromType := 0 })]).1
      = some { type := 1, status := .realloc, allocTok := 40, reallocedFromType := 0 } ∧
     findValue? 6 (changeAllocStatusIfRealloc (some { groupId := 2, arg := -1, reallocArg := 1 })
        2 40 5 6 [(5, { type := 1, status := .alloc, allocTok := 10, reallocedFromType := 0 })]).1
      = some { type := 2, status := .alloc, allocTok := 40, reallocedFromType := 5 }) :=
  C7_realloc_mismatch_and_transition
    { groupId := 2, arg := -1, reallocArg := 1 } 2 40 5 6
    [(5, { type := 1, status := .alloc, allocTok := 10, reallocedFromType := 0 })]
    { type := 1, status := .alloc, allocTok := 10, reallocedFromType := 0 }
    rfl (by decide) (by decide) rfl (by decide) (by decide) (by decide)

/-! ## Claim C3: condition scanning for allocation success/failure
comparisons (checkleakautovar.cpp 596-615) -/

/-- The predicate of the `std::any_of` at lines 604-609: the record is
`ALLOC` and `getReturnValueFromOutparamAlloc` on its allocation token
yields the compared variable (`ret && vartok && ret->varId() &&
ret->varId() == vartok->varId()`).  `retFromOutparamAlloc` models
`getReturnValueFromOutparamAlloc(allocTok, settings)` as the variable id of
the assigned return value (0 = no variable id). -/
def outparamRetMatches (retFromOutparamAlloc : Nat → Option Nat) (v : Nat)
    (info : AllocInfo) : Bool :=
  info.status == AllocStatus.alloc &&
  (match retFromOutparamAlloc info.allocTok with
   | some r => !(r == 0) && r == v
   | none => false)

/-- Handling of a canonical "allocation succeeded" comparison (`!=0`, `>0`,
`!=-1`, `>=0`, `>-1`) against tracked variable `v` in an `if` condition
(checkleakautovar.cpp lines 597-611): `varInfo2` (the else/failure branch
copy) gets `reallocToAlloc(v)` then `erase(v)`; if the comparison is `!=0`
and `v` is in the `notzero` set (`neqZeroAndNotzero`), `varInfo2` is
cleared; if some tracked allocation is an out-param allocation whose return
value is `v`, `varInfo1` is cleared. -/
def condSuccessComparison (retFromOutparamAlloc : Nat → Option Nat)
    (neqZeroAndNotzero : Bool) (v : Nat) (varInfo1 varInfo2 : VarInfo) :
    VarInfo × VarInfo :=
  let vi2a := (varInfo2.reallocToAlloc v).erase v
  let vi2b := if neqZeroAndNotzero then vi2a.clear else vi2a
  let vi1b := if varInfo1.alloctype.any
                  (fun kv => outparamRetMatches retFromOutparamAlloc v kv.2)
              then varInfo1.clear else varInfo1
  (vi1b, vi2b)

/-- Handling of a canonical "allocation failed" comparison (`==0`, `<0`,
`==-1`, `<=-1`) against tracked variable `v` (checkleakautovar.cpp lines
612-615): `varInfo1` (the if/failure branch copy) gets `reallocToAlloc(v)`
then `erase(v)`; `varInfo2` is untouched. -/
def condFailedComparison (v : Nat) (varInfo1 varInfo2 : VarInfo) :
    VarInfo × VarInfo :=
  ((varInfo1.reallocToAlloc v).erase v, varInfo2)

/-- C3: refuted as stated.  For a success comparison (`p != 0`) on `p`
(variable id 5, tracked `Allocated` in both branch copies), the record is
NOT removed from both copies: `varInfo1` (the true-branch copy) keeps its
record untouched; only `varInfo2` is erased (checkleakautovar.cpp lines
597-599 touch only `varInfo2`). -/
theorem C3_counterexample :
    findValue? 5 ((condSuccessComparison (fun _ => none) false 5
        { alloctype := [(5, { type := 1, status := .alloc, allocTok := 10, reallocedFromType := 0 })] }
        { alloctype := [(5, { type := 1, status := .alloc, allocTok := 10, reallocedFromType := 0 })] }).1.alloctype)
      = some { type := 1, status := .alloc, allocTok := 10, reallocedFromType := 0 } ∧
    findValue? 5 ((condSuccessComparison (fun _ => none) false 5
        { alloctype := [(5, { type := 1, status := .alloc, allocTok := 10, reallocedFromType := 0 })] }
        { alloctype := [(5, { type := 1, status := .alloc, allocTok := 10, reallocedFromType := 0 })] }).2.alloctype)
      = none := by
  constructor
  · rfl
  · rfl

/-- C3 (amended): a success comparison converts `v`'s `Reallocated` status
back to `Allocated` and then removes `v`'s record in the false(failure)
branch copy (`varInfo2`) ONLY, leaving the true-branch copy `varInfo1`
entirely untouched (absent the `notzero` and out-param-allocation special
cases); symmetrically a failure comparison does the same to the
true(failure) branch copy (`varInfo1`) only, leaving `varInfo2` untouched.
This happens before the branches are analyzed. -/
theorem C3_cond_comparison_amended
    (retFromOutparamAlloc : Nat → Option Nat) (v : Nat) (vi1 vi2 : VarInfo)
    (houtparam : vi1.alloctype.any
        (fun kv => outparamRetMatches retFromOutparamAlloc v kv.2) = false) :
    (condSuccessComparison retFromOutparamAlloc false v vi1 vi2).1 = vi1 ∧
    (condSuccessComparison retFromOutparamAlloc false v vi1 vi2).2
      = (vi2.reallocToAlloc v).erase v ∧
    findValue? v ((condSuccessComparison retFromOutparamAlloc false v vi1 vi2).2.alloctype)
      = none ∧
    (condFailedComparison v vi1 vi2).2 = vi2 ∧
    (condFailedComparison v vi1 vi2).1 = (vi1.reallocToAlloc v).erase v ∧
    findValue? v ((condFailedComparison v vi1 vi2).1.alloctype) = none := by
  refine ⟨?_, ?_, ?_, rfl, rfl, ?_⟩
  · simp only [condSuccessComparison, houtparam]
    rfl
  · simp only [condSuccessComparison]
    rfl
  · simp only [condSuccessComparison]
    exact findValue_eraseKey_self _ _
  · exact findValue_eraseKey_self _ _

/-- Witness for C3 (amended): concrete success and failure comparisons on
`p` (id 5) tracked `Reallocated` in both copies, with empty library
out-param data. -/
theorem C3_cond_comparison_amended_witness :
    ((condSuccessComparison (fun _ => none) false 5
        { alloctype := [(5, { type := 1, status := .realloc, allocTok := 10, reallocedFromType := 0 })] }
        { alloctype := [(5, { type := 1, status := .realloc, allocTok := 10, reallocedFromType := 0 })] }).1
      = { alloctype := [(5, { type := 1, status := .realloc, allocTok := 10, reallocedFromType := 0 })] } ∧
     (condSuccessComparison (fun _ => none) false 5
        { alloctype := [(5, { type := 1, status := .realloc, allocTok := 10, reallocedFromType := 0 })] }
        { alloctype := [(5, { type := 1, status := .realloc, allocTok := 10, reallocedFromType := 0 })] }).2
      = (VarInfo.erase (VarInfo.reallocToAlloc
          { alloctype := [(5, { type := 1, status := .realloc, allocTok := 10, reallocedFromType := 0 })] } 5) 5) ∧
     findValue? 5 ((condSuccessComparison (fun _ => none) false 5
        { alloctype := [(5, { type := 1, status := .realloc, allocTok := 10, reallocedFromType := 0 })] }
        { alloctype := [(5, { type := 1, status := .realloc, allocTok := 10, reallocedFromType := 0 })] }).2.alloctype)
      = none ∧
     (condFailedComparison 5
        { alloctype := [(5, { type := 1, status := .realloc, allocTok := 10, reallocedFromType := 0 })] }
        { alloctype := [(5, { type := 1, status := .realloc, allocTok := 10, reallocedFromType := 0 })] }).2
      = { alloctype := [(5, { type := 1, status := .realloc, allocTok := 10, reallocedFromType := 0 })] } ∧
     (condFailedComparison 5
        { alloctype := [(5, { type := 1, status := .realloc, allocTok := 10, reallocedFromType := 0 })] }
        { alloctype := [(5, { type := 1, status := .realloc, allocTok := 10, reallocedFromType := 0 })] }).1
      = (VarInfo.erase (VarInfo.reallocToAlloc
          { alloctype := [(5, { type := 1, status := .realloc, allocTok := 10, reallocedFromType := 0 })] } 5) 5) ∧
     findValue? 5 ((condFailedComparison 5
        { alloctype := [(5, { type := 1, status := .realloc, allocTok := 10, reallocedFromType := 0 })] }
        { alloctype := [(5, { type := 1, status := .realloc, allocTok := 10, reallocedFromType := 0 })] }).1.alloctype)
      = none) :=
  C3_cond_comparison_amended (fun _ => none) 5
    { alloctype := [(5, { type := 1, status := .realloc, allocTok := 10, reallocedFromType := 0 })] }
    { alloctype := [(5, { type := 1, status := .realloc, allocTok := 10, reallocedFromType := 0 })] }
    (by decide)

/-! ## The if/else join merge (checkleakautovar.cpp 634-682)

At the join, `VarInfo old; old.swap(varInfo);` moves the parent state into
`old` and leaves `varInfo` empty; `alloctype`/`possibleUsage` (references
into `varInfo`, lines 304-305) then denote the empty maps being filled.
`snapshot` is the `const std::set<int> conditionalAlloc` copied at
`checkScope` entry (line 306); `old.conditionalAlloc` is the parent's set
at the join. -/

/-- `std::map` key uniqueness invariant for the association-list model. -/
def NodupKeys {β : Type u} (m : List (Nat × β)) : Prop :=
  (m.map Prod.fst).Nodup

instance {β : Type u} (m : List (Nat × β)) : Decidable (NodupKeys m) := by
  unfold NodupKeys
  infer_instance

/-- Lines 637-646: every variable that was conditionally allocated at the
join and lost its record in either branch copy is erased from both branch
copies. -/
def mergeDropCondAlloc (old : VarInfo) (p : VarInfo × VarInfo) : VarInfo × VarInfo :=
  old.alloctype.foldl
    (fun p kv =>
      if kv.1 ∈ old.conditionalAlloc then
        if findValue? kv.1 p.1.alloctype = none ∨ findValue? kv.1 p.2.alloctype = none then
          (p.1.erase kv.1, p.2.erase kv.1)
        else p
      else p)
    p

/-- Lines 648-662 (one direction): every variable with a record in `a` but
none in `b` and none in `old.alloctype` is inserted into the merged
conditional-allocation set. -/
def condAllocMark (a b oldMap : List (Nat × AllocInfo)) (s : List Nat) : List Nat :=
  a.foldl
    (fun s kv =>
      if findValue? kv.1 b = none ∧ findValue? kv.1 oldMap = none then insertId s kv.1
      else s)
    s

/-- Lines 664-676 (one direction): every record of `entries` that is
managed and whose variable is in the scope-entry `conditionalAlloc`
snapshot drops the merged conditional marking and the other branch copy's
record. -/
def managedDrop (snapshot : List Nat) (entries : List (Nat × AllocInfo))
    (p : List Nat × VarInfo) : List Nat × VarInfo :=
  entries.foldl
    (fun p kv =>
      if kv.2.managed = true ∧ kv.1 ∈ snapshot then (eraseId kv.1 p.1, p.2.erase kv.1)
      else p)
    p

/-- Lines 648-662 in order: the conditional-allocation set built by the two
marking loops, starting from the empty post-swap set. -/
def mergeCa (old : VarInfo) (p1 : VarInfo × VarInfo) : List Nat :=
  condAllocMark p1.2.alloctype p1.1.alloctype old.alloctype
    (condAllocMark p1.1.alloctype p1.2.alloctype old.alloctype [])

/-- Lines 665-670: the managed-record loop over the if-branch copy's
records, erasing from the merged conditional set and the else-branch copy. -/
def mergeQ1 (snapshot : List Nat) (old : VarInfo) (p1 : VarInfo × VarInfo) :
    List Nat × VarInfo :=
  managedDrop snapshot p1.1.alloctype (mergeCa old p1, p1.2)

/-- Lines 671-676: the managed-record loop over the (already reduced)
else-branch copy's records, erasing from the merged conditional set and the
if-branch copy. -/
def mergeQ2 (snapshot : List Nat) (old : VarInfo) (p1 : VarInfo × VarInfo) :
    List Nat × VarInfo :=
  managedDrop snapshot (mergeQ1 snapshot old p1).2.alloctype
    ((mergeQ1 snapshot old p1).1, p1.1)

/-- Lines 634-676 of the merge: returns the processed if-branch copy, the
processed else-branch copy, and the merged conditional-allocation set. -/
def mergeParts (old : VarInfo) (snapshot : List Nat) (varInfo1 varInfo2 : VarInfo) :
    VarInfo × VarInfo × List Nat :=
  let p1 := mergeDropCondAlloc old (varInfo1, varInfo2)
  ((mergeQ2 snapshot old p1).2, (mergeQ1 snapshot old p1).2, (mergeQ2 snapshot old p1).1)

/-- The whole join merge, lines 634-682: the processed branch copies'
allocation-state and possible-usage maps are inserted (if-branch first,
then else-branch) into the empty post-swap maps via `std::map::insert`;
the merged `conditionalAlloc` is the computed set; `referenced` stays
empty (nothing refills it after the swap).  No diagnostic is emitted
anywhere in this code region. -/
def mergeIfElse (old : VarInfo) (snapshot : List Nat) (varInfo1 varInfo2 : VarInfo) :
    VarInfo × List Diag :=
  let parts := mergeParts old snapshot varInfo1 varInfo2
  ({ alloctype := insertEntries (insertEntries [] parts.1.alloctype) parts.2.1.alloctype
     possibleUsage := insertEntries (insertEntries [] parts.1.possibleUsage) parts.2.1.possibleUsage
     conditionalAlloc := parts.2.2
     referenced := [] },
   [])

/-! ### Supporting lemmas for the merge -/

theorem foldl_invariant {α : Type u} {σ : Type u} (step : σ → α → σ) (P : σ → Prop)
    (L : List α) (acc : σ) (hacc : P acc)
    (hstep : ∀ s a, a ∈ L → P s → P (step s a)) :
    P (L.foldl step acc) := by
  induction L generalizing acc with
  | nil => exact hacc
  | cons x xs ih =>
    exact ih (step acc x) (hstep acc x (List.mem_cons_self x xs) hacc)
      (fun s a ha hP => hstep s a (List.mem_cons_of_mem x ha) hP)

theorem mem_of_findValue_some {β : Type u} {m : List (Nat × β)} {v : Nat} {r : β}
    (h : findValue? v m = some r) : (v, r) ∈ m := by
  induction m with
  | nil => simp [findValue?] at h
  | cons kv rest ih =>
    obtain ⟨a, b⟩ := kv
    by_cases hk : a = v
    · rw [findValue?] at h
      simp only [hk, if_true] at h
      rw [Option.some_inj] at h
      rw [hk, h]
      exact List.mem_cons_self _ _
    · rw [findValue?] at h
      simp only [hk, if_false] at h
      exact List.mem_cons_of_mem _ (ih h)

theorem keys_ne_of_findValue_none {β : Type u} {m : List (Nat × β)} {v : Nat}
    (h : findValue? v m = none) : ∀ kv ∈ m, kv.1 ≠ v := by
  induction m with
  | nil => simp
  | cons kv rest ih =>
    by_cases hk : kv.1 = v
    · simp [findValue?, hk] at h
    · intro kw hkw
      rcases List.mem_cons.mp hkw with h1 | h1
      · rw [h1]; exact hk
      · exact ih (by simpa [findValue?, hk] using h) kw h1

theorem findValue_some_of_mem_nodup {β : Type u} {m : List (Nat × β)}
    (hnd : NodupKeys m) {v : Nat} {r : β} (hmem : (v, r) ∈ m) :
    findValue? v m = some r := by
  induction m with
  | nil => simp at hmem
  | cons kv rest ih =>
    obtain ⟨a, b⟩ := kv
    have hnd' : a ∉ rest.map Prod.fst ∧ (rest.map Prod.fst).Nodup := by
      have h0 := hnd
      unfold NodupKeys at h0
      rw [List.map_cons, List.nodup_cons] at h0
      exact h0
    have hnd2 : NodupKeys rest := hnd'.2
    rcases List.mem_cons.mp hmem with h1 | h1
    · rw [Prod.mk.injEq] at h1
      rw [findValue?]
      simp [h1.1, h1.2]
    · have hane : a ≠ v := by
        intro hav
        have hvmem : v ∈ rest.map Prod.fst := List.mem_map.mpr ⟨(v, r), h1, rfl⟩
        exact hnd'.1 (hav ▸ hvmem)
      rw [findValue?]
      simp only [hane, if_false]
      exact ih hnd2 h1

theorem eraseKey_sublist {β : Type u} (k : Nat) (m : List (Nat × β)) :
    List.Sublist (eraseKey k m) m := by
  induction m with
  | nil => simp [eraseKey]
  | cons kv rest ih =>
    by_cases h : kv.1 = k
    · rw [eraseKey, if_pos h]
      exact ih.cons kv
    · rw [eraseKey, if_neg h]
      exact ih.cons₂ kv

theorem mem_of_mem_eraseKey {β : Type u} {k : Nat} {m : List (Nat × β)}
    {x : Nat × β} (h : x ∈ eraseKey k m) : x ∈ m :=
  (eraseKey_sublist k m).subset h

theorem nodupKeys_of_sublist {β : Type u} {m1 m2 : List (Nat × β)}
    (hsub : List.Sublist m1 m2) (h : NodupKeys m2) : NodupKeys m1 :=
  List.Nodup.sublist (hsub.map Prod.fst) h

theorem mem_insertId_of_mem {s : List Nat} {k v : Nat} (h : v ∈ s) :
    v ∈ insertId s k := by
  unfold insertId
  by_cases hk : k ∈ s
  · simpa [hk] using h
  · simp [hk, List.mem_append, h]

theorem self_mem_insertId (s : List Nat) (k : Nat) : k ∈ insertId s k := by
  unfold insertId
  by_cases hk : k ∈ s
  · rw [if_pos hk]
    exact hk
  · rw [if_neg hk]
    simp

theorem mem_eraseId_of_ne {s : List Nat} {k v : Nat} (h : v ∈ s) (hne : v ≠ k) :
    v ∈ eraseId k s := by
  induction s with
  | nil => simp at h
  | cons x rest ih =>
    rcases List.mem_cons.mp h with h1 | h1
    · subst h1
      rw [eraseId, if_neg hne]
      exact List.mem_cons_self _ _
    · by_cases hx : x = k
      · rw [eraseId, if_pos hx]
        exact ih h1
      · rw [eraseId, if_neg hx]
        exact List.mem_cons_of_mem _ (ih h1)

/-- Loop 1 (lines 637-646) only erases keys of `old.alloctype`, so the
lookup of a variable with no pre-join record is unchanged in both branch
copies. -/
theorem mergeDropCondAlloc_findValue (old : VarInfo) (p : VarInfo × VarInfo) (v : Nat)
    (hold : findValue? v old.alloctype = none) :
    findValue? v (mergeDropCondAlloc old p).1.alloctype = findValue? v p.1.alloctype ∧
    findValue? v (mergeDropCondAlloc old p).2.alloctype = findValue? v p.2.alloctype := by
  have hkeys := keys_ne_of_findValue_none hold
  unfold mergeDropCondAlloc
  refine foldl_invariant _
    (fun q => findValue? v q.1.alloctype = findValue? v p.1.alloctype ∧
              findValue? v q.2.alloctype = findValue? v p.2.alloctype)
    old.alloctype p ⟨rfl, rfl⟩ ?_
  intro s kv hmem hP
  have hne : v ≠ kv.1 := Ne.symm (hkeys kv hmem)
  by_cases h1 : kv.1 ∈ old.conditionalAlloc
  · by_cases h2 : findValue? kv.1 s.1.alloctype = none ∨ findValue? kv.1 s.2.alloctype = none
    · rw [if_pos h1, if_pos h2]
      constructor
      · rw [show (VarInfo.erase s.1 kv.1).alloctype = eraseKey kv.1 s.1.alloctype from rfl]
        rw [findValue_eraseKey_ne _ _ _ hne]
        exact hP.1
      · rw [show (VarInfo.erase s.2 kv.1).alloctype = eraseKey kv.1 s.2.alloctype from rfl]
        rw [findValue_eraseKey_ne _ _ _ hne]
        exact hP.2
    · rw [if_pos h1, if_neg h2]
      exact hP
  · rw [if_neg h1]
    exact hP

/-- Loop 1 only erases entries, so each branch copy's record list stays a
sublist of its input's. -/
theorem mergeDropCondAlloc_sublist (old : VarInfo) (p : VarInfo × VarInfo) :
    List.Sublist (mergeDropCondAlloc old p).1.alloctype p.1.alloctype ∧
    List.Sublist (mergeDropCondAlloc old p).2.alloctype p.2.alloctype := by
  unfold mergeDropCondAlloc
  refine foldl_invariant _
    (fun q => List.Sublist q.1.alloctype p.1.alloctype ∧
              List.Sublist q.2.alloctype p.2.alloctype)
    old.alloctype p ⟨List.Sublist.refl _, List.Sublist.refl _⟩ ?_
  intro s kv _ hP
  by_cases h1 : kv.1 ∈ old.conditionalAlloc
  · by_cases h2 : findValue? kv.1 s.1.alloctype = none ∨ findValue? kv.1 s.2.alloctype = none
    · rw [if_pos h1, if_pos h2]
      exact ⟨(eraseKey_sublist kv.1 s.1.alloctype).trans hP.1,
             (eraseKey_sublist kv.1 s.2.alloctype).trans hP.2⟩
    · rw [if_pos h1, if_neg h2]
      exact hP
  · rw [if_neg h1]
    exact hP

/-- `condAllocMark` never removes ids. -/
theorem condAllocMark_mem_mono (a b oldMap : List (Nat × AllocInfo)) (s : List Nat)
    (v : Nat) (h : v ∈ s) : v ∈ condAllocMark a b oldMap s := by
  unfold condAllocMark
  refine foldl_invariant _ (fun s => v ∈ s) a s h ?_
  intro s kv _ hP
  by_cases hc : findValue? kv.1 b = none ∧ findValue? kv.1 oldMap = none
  · rw [if_pos hc]
    exact mem_insertId_of_mem hP
  · rw [if_neg hc]
    exact hP

/-- A variable with a record in `a`, none in `b` and none in `oldMap` is
marked by `condAllocMark`. -/
theorem condAllocMark_mem_of (a b oldMap : List (Nat × AllocInfo)) (s : List Nat)
    (v : Nat) (r : AllocInfo)
    (hb : findValue? v b = none) (ho : findValue? v oldMap = none) :
    (v, r) ∈ a → v ∈ condAllocMark a b oldMap s := by
  unfold condAllocMark
  induction a generalizing s with
  | nil => intro hmem; simp at hmem
  | cons kv rest ih =>
    intro hmem
    rw [List.foldl_cons]
    rcases List.mem_cons.mp hmem with h1 | h1
    · rw [← h1]
      rw [if_pos ⟨hb, ho⟩]
      exact condAllocMark_mem_mono rest b oldMap _ v (self_mem_insertId s v)
    · by_cases hc : findValue? kv.1 b = none ∧ findValue? kv.1 oldMap = none
      · rw [if_pos hc]
        exact ih (insertId s kv.1) h1
      · rw [if_neg hc]
        exact ih s h1

/-- `managedDrop` keeps `v` in the conditional set as long as no `entries`
record for `v` is managed-with-snapshot-membership. -/
theorem managedDrop_mem_ca (snapshot : List Nat) (entries : List (Nat × AllocInfo))
    (p : List Nat × VarInfo) (v : Nat) (hv : v ∈ p.1)
    (hsafe : ∀ r : AllocInfo, (v, r) ∈ entries → ¬(r.managed = true ∧ v ∈ snapshot)) :
    v ∈ (managedDrop snapshot entries p).1 := by
  unfold managedDrop
  refine foldl_invariant _ (fun q => v ∈ q.1) entries p hv ?_
  intro s kv hmem hP
  by_cases hc : kv.2.managed = true ∧ kv.1 ∈ snapshot
  · rw [if_pos hc]
    have hne : v ≠ kv.1 := by
      intro he
      exact hsafe kv.2 (by rw [he]; exact hmem) ⟨hc.1, by rw [he]; exact hc.2⟩
    exact mem_eraseId_of_ne hP hne
  · rw [if_neg hc]
    exact hP

/-- `managedDrop` only erases records from its `VarInfo` component. -/
theorem managedDrop_alloctype_sublist (snapshot : List Nat)
    (entries : List (Nat × AllocInfo)) (p : List Nat × VarInfo) :
    List.Sublist (managedDrop snapshot entries p).2.alloctype p.2.alloctype := by
  unfold managedDrop
  refine foldl_invariant _ (fun q => List.Sublist q.2.alloctype p.2.alloctype)
    entries p (List.Sublist.refl _) ?_
  intro s kv _ hP
  by_cases hc : kv.2.managed = true ∧ kv.1 ∈ snapshot
  · rw [if_pos hc]
    exact (eraseKey_sublist kv.1 s.2.alloctype).trans hP
  · rw [if_neg hc]
    exact hP

/-- C1: refuted as stated.  Variable 7 has a record in exactly one
post-branch copy (`varInfo1`, with status `DEALLOC`) and no record before
the `if`, yet it is NOT in the merged `conditionalAlloc`: because 7 was in
the scope-entry `conditionalAlloc` snapshot and its only record is managed,
the loop at lines 665-670 erases the marking the loop at lines 649-654 just
made.  Reachable e.g. by `if (a) p = malloc(1); if (b) { p = 0; if (c)
free(p); }`: inside the nested scope the snapshot holds `p`, `p = 0` erases
its record, and `free(p)` installs a `DEALLOC` record in the if-copy only. -/
theorem C1_counterexample :
    findValue? 7 (VarInfo.alloctype
        { alloctype := [(7, { type := 1, status := .dealloc, allocTok := 12, reallocedFromType := 0 })] })
      = some { type := 1, status := .dealloc, allocTok := 12, reallocedFromType := 0 } ∧
    findValue? 7 (VarInfo.alloctype {}) = none ∧
    7 ∉ (mergeIfElse {} [7]
        { alloctype := [(7, { type := 1, status := .dealloc, allocTok := 12, reallocedFromType := 0 })] }
        {}).1.conditionalAlloc ∧
    (mergeIfElse {} [7]
        { alloctype := [(7, { type := 1, status := .dealloc, allocTok := 12, reallocedFromType := 0 })] }
        {}).2 = [] := by
  refine ⟨rfl, rfl, ?_, rfl⟩
  decide

/-- C1 (amended): at an if/else join, every variable `v` having a record in
exactly one of the two post-branch copies and no record before the `if` is
in the merged state's `conditionalAlloc` — UNLESS that single record is
managed and `v` was in the scope-entry `conditionalAlloc` snapshot (then
lines 664-676 drop the marking again); and the merge emits no diagnostic
(in particular no `Leak`) at the join itself. -/
theorem C1_merge_soundness_amended
    (old : VarInfo) (snapshot : List Nat) (varInfo1 varInfo2 : VarInfo)
    (v : Nat) (rec : AllocInfo)
    (hnd1 : NodupKeys varInfo1.alloctype) (hnd2 : NodupKeys varInfo2.alloctype)
    (hone : (findValue? v varInfo1.alloctype = some rec ∧
             findValue? v varInfo2.alloctype = none) ∨
            (findValue? v varInfo2.alloctype = some rec ∧
             findValue? v varInfo1.alloctype = none))
    (hold : findValue? v old.alloctype = none)
    (hkeep : ¬(rec.managed = true ∧ v ∈ snapshot)) :
    v ∈ (mergeIfElse old snapshot varInfo1 varInfo2).1.conditionalAlloc ∧
    (mergeIfElse old snapshot varInfo1 varInfo2).2 = [] := by
  refine ⟨?_, rfl⟩
  have hfind := mergeDropCondAlloc_findValue old (varInfo1, varInfo2) v hold
  have hsub := mergeDropCondAlloc_sublist old (varInfo1, varInfo2)
  show v ∈ (mergeQ2 snapshot old (mergeDropCondAlloc old (varInfo1, varInfo2))).1
  set p1 := mergeDropCondAlloc old (varInfo1, varInfo2) with hp1
  have hndp1 : NodupKeys p1.1.alloctype := nodupKeys_of_sublist hsub.1 hnd1
  have hndp2 : NodupKeys p1.2.alloctype := nodupKeys_of_sublist hsub.2 hnd2
  unfold mergeQ2
  rcases hone with ⟨h1, h2⟩ | ⟨h1, h2⟩
  · -- record only in the if-branch copy
    have hv1 : findValue? v p1.1.alloctype = some rec := by rw [hfind.1]; exact h1
    have hv2 : findValue? v p1.2.alloctype = none := by rw [hfind.2]; exact h2
    apply managedDrop_mem_ca
    · show v ∈ (mergeQ1 snapshot old p1).1
      unfold mergeQ1
      apply managedDrop_mem_ca
      · show v ∈ mergeCa old p1
        unfold mergeCa
        apply condAllocMark_mem_mono
        exact condAllocMark_mem_of p1.1.alloctype p1.2.alloctype old.alloctype [] v rec
          hv2 hold (mem_of_findValue_some hv1)
      · intro r hr hcond
        have hfr := findValue_some_of_mem_nodup hndp1 hr
        rw [hv1] at hfr
        have hrrec : rec = r := Option.some_inj.mp hfr
        exact hkeep ⟨by rw [hrrec]; exact hcond.1, hcond.2⟩
    · intro r hr _
      have hr' : (v, r) ∈ p1.2.alloctype :=
        (managedDrop_alloctype_sublist snapshot p1.1.alloctype
          (mergeCa old p1, p1.2)).subset hr
      exact (keys_ne_of_findValue_none hv2 (v, r) hr') rfl
  · -- record only in the else-branch copy
    have hv2 : findValue? v p1.2.alloctype = some rec := by rw [hfind.2]; exact h1
    have hv1 : findValue? v p1.1.alloctype = none := by rw [hfind.1]; exact h2
    apply managedDrop_mem_ca
    · show v ∈ (mergeQ1 snapshot old p1).1
      unfold mergeQ1
      apply managedDrop_mem_ca
      · show v ∈ mergeCa old p1
        unfold mergeCa
        exact condAllocMark_mem_of p1.2.alloctype p1.1.alloctype old.alloctype _ v rec
          hv1 hold (mem_of_findValue_some hv2)
      · intro r hr _
        exact (keys_ne_of_findValue_none hv1 (v, r) hr) rfl
    · intro r hr hcond
      have hr' : (v, r) ∈ p1.2.alloctype :=
        (managedDrop_alloctype_sublist snapshot p1.1.alloctype
          (mergeCa old p1, p1.2)).subset hr
      have hfr := findValue_some_of_mem_nodup hndp2 hr'
      rw [hv2] at hfr
      have hrrec : rec = r := Option.some_inj.mp hfr
      exact hkeep ⟨by rw [hrrec]; exact hcond.1, hcond.2⟩

/-- Witness for C1 (amended): variable 7 allocated (status `ALLOC`, not
managed) only in the if-branch copy, absent before the `if` and not in the
snapshot: it is conditionally allocated after the merge and the merge emits
nothing. -/
theorem C1_merge_soundness_amended_witness :
    (7 ∈ (mergeIfElse {} []
        { alloctype := [(7, { type := 1, status := .alloc, allocTok := 12, reallocedFromType := 0 })] }
        {}).1.conditionalAlloc ∧
     (mergeIfElse {} []
        { alloctype := [(7, { type := 1, status := .alloc, allocTok := 12, reallocedFromType := 0 })] }
        {}).2 = []) :=
  C1_merge_soundness_amended {} []
    { alloctype := [(7, { type := 1, status := .alloc, allocTok := 12, reallocedFromType := 0 })] }
    {} 7 { type := 1, status := .alloc, allocTok := 12, reallocedFromType := 0 }
    (by decide) (by decide) (Or.inl ⟨rfl, rfl⟩) rfl (by decide)

/-! ### Lookup through `std::map::insert` ranges (for the union at lines
678-682) -/

theorem findValue_append_single {β : Type u} (m : List (Nat × β)) (j k : Nat) (w : β) :
    findValue? k (m ++ [(j, w)]) =
      (match findValue? k m with
       | some r => some r
       | none => if j = k then some w else none) := by
  induction m with
  | nil => simp [findValue?]
  | cons kv rest ih =>
    by_cases h : kv.1 = k
    · simp [findValue?, h]
    · simp only [List.cons_append, findValue?, h, if_false]
      exact ih

theorem findValue_insertEntries {β : Type u} (other m : List (Nat × β)) (k : Nat) :
    findValue? k (insertEntries m other) =
      (match findValue? k m with
       | some r => some r
       | none => findValue? k other) := by
  induction other generalizing m with
  | nil =>
    cases hk : findValue? k m with
    | some r => simp [insertEntries, hk]
    | none => simp [insertEntries, hk, findValue?]
  | cons kv rest ih =>
    obtain ⟨j, w⟩ := kv
    rw [insertEntries]
    by_cases h1 : (findValue? j m).isSome
    · rw [if_pos h1, ih]
      cases hk : findValue? k m with
      | some r => simp
      | none =>
        have hne : j ≠ k := by
          intro he
          rw [he, hk] at h1
          simp at h1
        simp [findValue?, hne]
    · rw [if_neg h1, ih]
      cases hk : findValue? k m with
      | some r => simp [findValue_append_single, hk]
      | none =>
        by_cases hj : j = k
        · simp [findValue_append_single, hk, findValue?, hj]
        · simp [findValue_append_single, hk, findValue?, hj]

/-- C5: refuted as stated.  Both post-branch copies hold a record for
variable 1 (allocated at token 10 in the if-branch copy, at token 20 in the
else-branch copy); the merged map keeps the IF-branch entry, not the
else-branch one, because `std::map::insert` skips keys already present and
the if-branch copy is inserted first (lines 678-682). -/
theorem C5_counterexample :
    findValue? 1 ((mergeIfElse {} []
        { alloctype := [(1, { type := 1, status := .alloc, allocTok := 10, reallocedFromType := 0 })] }
        { alloctype := [(1, { type := 1, status := .alloc, allocTok := 20, reallocedFromType := 0 })] }).1.alloctype)
      = some { type := 1, status := .alloc, allocTok := 10, reallocedFromType := 0 } ∧
    ({ type := 1, status := .alloc, allocTok := 10, reallocedFromType := 0 } : AllocInfo)
      ≠ { type := 1, status := .alloc, allocTok := 20, reallocedFromType := 0 } := by
  constructor
  · decide
  · decide

/-- C5 (amended): at the join, the merged allocation-state and
possible-usage maps are the union of the two processed post-branch copies
(`mergeParts`), inserted if-branch first: a key found in the processed
if-branch copy keeps the IF-branch entry (`std::map::insert` does not
overwrite), and a key absent there takes the processed else-branch copy's
entry. -/
theorem C5_merge_union_amended
    (old : VarInfo) (snapshot : List Nat) (varInfo1 varInfo2 : VarInfo) (k : Nat) :
    (∀ r1, findValue? k (mergeParts old snapshot varInfo1 varInfo2).1.alloctype = some r1 →
       findValue? k (mergeIfElse old snapshot varInfo1 varInfo2).1.alloctype = some r1) ∧
    (findValue? k (mergeParts old snapshot varInfo1 varInfo2).1.alloctype = none →
       findValue? k (mergeIfElse old snapshot varInfo1 varInfo2).1.alloctype
         = findValue? k (mergeParts old snapshot varInfo1 varInfo2).2.1.alloctype) ∧
    (∀ u1, findValue? k (mergeParts old snapshot varInfo1 varInfo2).1.possibleUsage = some u1 →
       findValue? k (mergeIfElse old snapshot varInfo1 varInfo2).1.possibleUsage = some u1) ∧
    (findValue? k (mergeParts old snapshot varInfo1 varInfo2).1.possibleUsage = none →
       findValue? k (mergeIfElse old snapshot varInfo1 varInfo2).1.possibleUsage
         = findValue? k (mergeParts old snapshot varInfo1 varInfo2).2.1.possibleUsage) := by
  have ha : findValue? k (mergeIfElse old snapshot varInfo1 varInfo2).1.alloctype
      = (match findValue? k (mergeParts old snapshot varInfo1 varInfo2).1.alloctype with
         | some r => some r
         | none => findValue? k (mergeParts old snapshot varInfo1 varInfo2).2.1.alloctype) := by
    show findValue? k (insertEntries
        (insertEntries [] (mergeParts old snapshot varInfo1 varInfo2).1.alloctype)
        (mergeParts old snapshot varInfo1 varInfo2).2.1.alloctype) = _
    rw [findValue_insertEntries, findValue_insertEntries]
    cases findValue? k (mergeParts old snapshot varInfo1 varInfo2).1.alloctype with
    | some r => simp [findValue?]
    | none => simp [findValue?]
  have hb : findValue? k (mergeIfElse old snapshot varInfo1 varInfo2).1.possibleUsage
      = (match findValue? k (mergeParts old snapshot varInfo1 varInfo2).1.possibleUsage with
         | some r => some r
         | none => findValue? k (mergeParts old snapshot varInfo1 varInfo2).2.1.possibleUsage) := by
    show findValue? k (insertEntries
        (insertEntries [] (mergeParts old snapshot varInfo1 varInfo2).1.possibleUsage)
        (mergeParts old snapshot varInfo1 varInfo2).2.1.possibleUsage) = _
    rw [findValue_insertEntries, findValue_insertEntries]
    cases findValue? k (mergeParts old snapshot varInfo1 varInfo2).1.possibleUsage with
    | some r => simp [findValue?]
    | none => simp [findValue?]
  refine ⟨?_, ?_, ?_, ?_⟩
  · intro r1 h
    rw [ha, h]
  · intro h
    rw [ha, h]
  · intro u1 h
    rw [hb, h]
  · intro h
    rw [hb, h]

/-- Witness for C5 (amended): concrete join where both processed copies
hold a record for variable 1; the merged map keeps the if-branch entry
(allocated at token 10). -/
theorem C5_merge_union_amended_witness :
    findValue? 1 (mergeIfElse {} []
        { alloctype := [(1, { type := 1, status := .alloc, allocTok := 10, reallocedFromType := 0 })] }
        { alloctype := [(1, { type := 1, status := .alloc, allocTok := 20, reallocedFromType := 0 })] }).1.alloctype
      = some { type := 1, status := .alloc, allocTok := 10, reallocedFromType := 0 } :=
  (C5_merge_union_amended {} []
    { alloctype := [(1, { type := 1, status := .alloc, allocTok := 10, reallocedFromType := 0 })] }
    { alloctype := [(1, { type := 1, status := .alloc, allocTok := 20, reallocedFromType := 0 })] } 1).1
    { type := 1, status := .alloc, allocTok := 10, reallocedFromType := 0 } (by decide)

/-! ## Claim C2: branch-abandon handling at if/else (checkleakautovar.cpp
619-632) -/

/-- What the enclosing `checkScope` does after dispatching an `if`/`else`
statement's branches. -/
inductive IfElseOutcome where
  /-- `continue`: keep scanning the current scope (line 621). -/
  | continueScan
  /-- `return false`: propagate abandon to the caller (line 627). -/
  | abandonCaller
  /-- fall through to the join merge (lines 634-682). -/
  | merged
  deriving DecidableEq, Repr

/-- Lines 619-632 plus the merge: `ifResult`/`elseResult` are the Boolean
results of the recursive `checkScope` calls on the two blocks (`false` =
abandon); `skipIf`/`skipElse` model the known-condition skipping (lines
499-502); `hasElse` models `Token::simpleMatch(closingParenthesis, "}
else {")`.  If the if-block's analysis abandons, the enclosing scope clears
its state and CONTINUES scanning (`continue`, line 621); if the else-block's
analysis abandons, it clears its state and returns `false` (line 627);
otherwise the join merge runs. -/
def ifElseDispatch (skipIf skipElse hasElse : Bool) (ifResult elseResult : Bool)
    (snapshot : List Nat) (varInfo varInfo1 varInfo2 : VarInfo) :
    VarInfo × IfElseOutcome × List Diag :=
  if skipIf = false ∧ ifResult = false then
    (varInfo.clear, .continueScan, [])
  else if hasElse = true ∧ skipElse = false ∧ elseResult = false then
    (varInfo.clear, .abandonCaller, [])
  else
    ((mergeIfElse varInfo snapshot varInfo1 varInfo2).1, .merged,
     (mergeIfElse varInfo snapshot varInfo1 varInfo2).2)

/-- C2: refuted as stated.  When the IF-branch's recursive analysis signals
abandon, the enclosing `checkScope` clears its state but does NOT return
`false`: it executes `continue` and keeps scanning the current scope
(checkleakautovar.cpp lines 619-622), so the abandon signal is not
propagated to the caller. -/
theorem C2_counterexample :
    (ifElseDispatch false false true false true []
        { alloctype := [(4, { type := 2, status := .alloc, allocTok := 9, reallocedFromType := 0 })] }
        {} {}).2.1 = IfElseOutcome.continueScan ∧
    IfElseOutcome.continueScan ≠ IfElseOutcome.abandonCaller ∧
    (ifElseDispatch false false true false true []
        { alloctype := [(4, { type := 2, status := .alloc, allocTok := 9, reallocedFromType := 0 })] }
        {} {}).1 = {} := by
  refine ⟨rfl, ?_, rfl⟩
  decide

/-- C2 (amended): if the if-block's recursive analysis signals abandon (and
the block was not skipped), the enclosing `checkScope` clears its own
tracked state — suppressing further diagnostics for previously tracked
variables — and continues scanning the current scope WITHOUT propagating
abandon; only an abandon signalled by the else-block makes the enclosing
`checkScope` clear its state and itself return `false` to its caller. -/
theorem C2_abandon_amended
    (snapshot : List Nat) (varInfo varInfo1 varInfo2 : VarInfo)
    (skipElse hasElse : Bool) (elseResult : Bool) :
    (ifElseDispatch false skipElse hasElse false elseResult snapshot varInfo varInfo1 varInfo2
       = (varInfo.clear, .continueScan, [])) ∧
    (∀ skipIf ifResult : Bool, (skipIf = true ∨ ifResult = true) →
       ifElseDispatch skipIf false true ifResult false snapshot varInfo varInfo1 varInfo2
         = (varInfo.clear, .abandonCaller, [])) := by
  constructor
  · rw [ifElseDispatch, if_pos ⟨rfl, rfl⟩]
  · intro skipIf ifResult h
    have hnot : ¬(skipIf = false ∧ ifResult = false) := by
      rcases h with h | h
      · intro hc
        rw [h] at hc
        exact Bool.true_eq_false.mp hc.1
      · intro hc
        rw [h] at hc
        exact Bool.true_eq_false.mp hc.2
    rw [ifElseDispatch, if_neg hnot, if_pos ⟨rfl, rfl, rfl⟩]

/-- Witness for C2 (amended): a concrete state with a tracked allocation,
if-branch abandon clears and continues; else-branch abandon (if-branch ok)
clears and returns `false`. -/
theorem C2_abandon_amended_witness :
    (ifElseDispatch false false true false true []
        { alloctype := [(4, { type := 2, status := .alloc, allocTok := 9, reallocedFromType := 0 })] }
        {} {}
       = (VarInfo.clear
            { alloctype := [(4, { type := 2, status := .alloc, allocTok := 9, reallocedFromType := 0 })] },
          .continueScan, []) ∧
     ifElseDispatch true false true true false []
        { alloctype := [(4, { type := 2, status := .alloc, allocTok := 9, reallocedFromType := 0 })] }
        {} {}
       = (VarInfo.clear
            { alloctype := [(4, { type := 2, status := .alloc, allocTok := 9, reallocedFromType := 0 })] },
          .abandonCaller, [])) :=
  ⟨(C2_abandon_amended []
      { alloctype := [(4, { type := 2, status := .alloc, allocTok := 9, reallocedFromType := 0 })] }
      {} {} false true true).1,
   (C2_abandon_amended []
      { alloctype := [(4, { type := 2, status := .alloc, allocTok := 9, reallocedFromType := 0 })] }
      {} {} false true true).2 true true (Or.inl rfl)⟩

/-! ## Claim C9: smart-pointer construction with a deleter
(checkleakautovar.cpp 782-860) -/

/-- Outcome of the deleter resolution at lines 797-856. -/
inductive DeleterCheck where
  /-- no deleter argument at all (`deleterToken == nullptr`). -/
  | noDeleter
  /-- `& name` function pointer resolved to a recognized deallocator. -/
  | fnPtrDealloc (groupId : Int)
  /-- a lambda/function/deleter-class body was available and scanned for a
  deallocator call (`found` is its family if one was found). -/
  | scopeScan (found : Option Int)
  /-- a deleter exists but no function pointer or body could be resolved
  (lines 851-854). -/
  | unresolvable
  deriving DecidableEq, Repr

/-- Lines 845-860: the state transition for a smart-pointer construction
wrapping variable `vtok` (token) / `vVarId` (variable id).  With an
unresolvable deleter the whole state is cleared and scanning continues
(lines 851-854); otherwise an `OWNED` allocation with the resolved family
(or `NEW`/`NEW_ARRAY`) is applied through `changeAllocStatus` (lines
858-860; `vtok` is preceded by `{`/`(` and is not inside a `return`). -/
def smartPointerStep (isAllocFuncTok : Nat → Bool) (check : DeleterCheck)
    (arrayDelete : Bool) (ftok vtok vVarId : Nat) (varInfo : VarInfo) :
    VarInfo × List Diag :=
  match check with
  | .unresolvable => (varInfo.clear, [])
  | .noDeleter =>
    changeAllocStatus isAllocFuncTok varInfo
      { type := if arrayDelete then NEW_ARRAY else NEW, status := .owned,
        allocTok := ftok, reallocedFromType := 0 } vtok vVarId false false
  | .fnPtrDealloc g =>
    changeAllocStatus isAllocFuncTok varInfo
      { type := g, status := .owned, allocTok := ftok, reallocedFromType := 0 }
      vtok vVarId false false
  | .scopeScan found =>
    changeAllocStatus isAllocFuncTok varInfo
      { type := (match found with
                 | some g => g
                 | none => if arrayDelete then NEW_ARRAY else NEW),
        status := .owned, allocTok := ftok, reallocedFromType := 0 }
      vtok vVarId false false

/-- C9: refuted as stated.  With an unresolvable deleter for wrapped
variable 5, the record of the OTHER tracked variable 2 is dropped too:
lines 851-854 execute `varInfo.clear()`, wiping the entire analysis state,
not just the wrapped variable's record. -/
theorem C9_counterexample :
    findValue? 2 (VarInfo.alloctype
        { alloctype := [(2, { type := 1, status := .alloc, allocTok := 10, reallocedFromType := 0 })] })
      = some { type := 1, status := .alloc, allocTok := 10, reallocedFromType := 0 } ∧
    findValue? 2 ((smartPointerStep (fun _ => false) .unresolvable false 9 5 5
        { alloctype := [(2, { type := 1, status := .alloc, allocTok := 10, reallocedFromType := 0 })] }).1.alloctype)
      = none := by
  constructor
  · rfl
  · rfl

/-- C9 (amended): for a smart-pointer construction whose deleter cannot be
resolved, tracking is abandoned for EVERY variable: the whole analysis
state is cleared (every allocation-state record, possible usage,
conditional marking and reference is dropped), no diagnostic is emitted,
and scanning continues. -/
theorem C9_unresolvable_deleter_amended
    (isAllocFuncTok : Nat → Bool) (arrayDelete : Bool) (ftok vtok vVarId : Nat)
    (varInfo : VarInfo) :
    smartPointerStep isAllocFuncTok .unresolvable arrayDelete ftok vtok vVarId varInfo
      = (VarInfo.clear varInfo, []) ∧
    (VarInfo.clear varInfo).alloctype = [] := by
  exact ⟨rfl, rfl⟩

/-! ## Claim C10: `throw` handling (checkleakautovar.cpp 699-711) -/

/-- The scope kinds relevant here (symboldatabase `ScopeType`). -/
inductive ScopeType where
  | eGlobal
  | eClass
  | eNamespace
  | eFunction
  | eIf
  | eElse
  | eFor
  | eWhile
  | eDo
  | eSwitch
  | eTry
  | eCatch
  | eLambda
  | eUnconditional
  deriving DecidableEq, Repr

/-- Modelled from the spec: `Scope::isExecutable` (symboldatabase, not in
the provided sources) — scopes inside a function body are executable,
global/type/namespace scopes are not. -/
def ScopeType.isExecutable : ScopeType → Bool
  | .eGlobal | .eClass | .eNamespace => false
  | _ => true

/-- Lines 700-706: walk outward through the scope chain while scopes are
executable, recording whether any of them is a `try` scope (no check for a
matching `catch` is made). -/
def tryFoundIn : List ScopeType → Bool
  | [] => false
  | s :: rest => if s.isExecutable = true then ((s == ScopeType.eTry) || tryFoundIn rest) else false

/-- Lines 699-711: on `throw`, if no enclosing executable `try` scope
exists the statement is treated like a `return` (`ret`, the scope-exit
reporting, here the parameter `retFn`); the tracked state is cleared in
both cases. -/
def throwStep (scopes : List ScopeType) (retFn : VarInfo → VarInfo × List Diag)
    (varInfo : VarInfo) : VarInfo × List Diag :=
  if tryFoundIn scopes = true then (varInfo.clear, [])
  else ((retFn varInfo).1.clear, (retFn varInfo).2)

theorem tryFoundIn_append_try (pre post : List ScopeType)
    (hpre : ∀ s ∈ pre, s.isExecutable = true) :
    tryFoundIn (pre ++ ScopeType.eTry :: post) = true := by
  induction pre with
  | nil =>
    rw [List.nil_append, tryFoundIn]
    simp [ScopeType.isExecutable]
  | cons s rest ih =>
    rw [List.cons_append, tryFoundIn,
        if_pos (hpre s (List.mem_cons_self s rest)),
        ih (fun x hx => hpre x (List.mem_cons_of_mem s hx))]
    simp

/-- C10: confirmed.  A `throw` whose scope chain reaches an enclosing `try`
scope through executable scopes — however distant, and with no check that a
matching `catch` exists — clears all tracked state and emits nothing (so
nothing allocated before it is reported there); a `throw` with no enclosing
`try` runs the scope-exit reporting `ret` like a `return` and then clears
the state. -/
theorem C10_throw_inside_try
    (pre post scopes2 : List ScopeType) (retFn : VarInfo → VarInfo × List Diag)
    (varInfo : VarInfo)
    (hpre : ∀ s ∈ pre, s.isExecutable = true)
    (hno : tryFoundIn scopes2 = false) :
    throwStep (pre ++ ScopeType.eTry :: post) retFn varInfo = (varInfo.clear, []) ∧
    throwStep scopes2 retFn varInfo = ((retFn varInfo).1.clear, (retFn varInfo).2) := by
  constructor
  · rw [throwStep, if_pos (tryFoundIn_append_try pre post hpre)]
  · rw [throwStep, if_neg (by rw [hno]; simp)]

/-- Witness for C10: `throw` inside `if` inside `while` inside `try` inside
the function scope (tracked allocation for variable 4, reporting function
that would emit a leak): state cleared, nothing emitted; without the `try`,
the reporting function's output is emitted and the state is cleared. -/
theorem C10_throw_inside_try_witness :
    (throwStep ([ScopeType.eIf, ScopeType.eWhile] ++ ScopeType.eTry :: [ScopeType.eFunction])
        (fun vi => (vi, [Diag.leak 30 4]))
        { alloctype := [(4, { type := 1, status := .alloc, allocTok := 11, reallocedFromType := 0 })] }
      = (VarInfo.clear
          { alloctype := [(4, { type := 1, status := .alloc, allocTok := 11, reallocedFromType := 0 })] },
         []) ∧
     throwStep [ScopeType.eIf, ScopeType.eFunction]
        (fun vi => (vi, [Diag.leak 30 4]))
        { alloctype := [(4, { type := 1, status := .alloc, allocTok := 11, reallocedFromType := 0 })] }
      = (VarInfo.clear
          { alloctype := [(4, { type := 1, status := .alloc, allocTok := 11, reallocedFromType := 0 })] },
         [Diag.leak 30 4])) :=
  C10_throw_inside_try [ScopeType.eIf, ScopeType.eWhile] [ScopeType.eFunction]
    [ScopeType.eIf, ScopeType.eFunction]
    (fun vi => (vi, [Diag.leak 30 4]))
    { alloctype := [(4, { type := 1, status := .alloc, allocTok := 11, reallocedFromType := 0 })] }
    (by decide) (by decide)

/-! ## Claim C8: recursion ceiling of `checkScope`
(checkleakautovar.cpp 288-302, 619-629)

The recursion skeleton of `checkScope`: each nested `if`/`else` block is a
recursive call with the incremented counter; on entry
`++recursiveCount > recursiveLimit` throws `InternalError` of kind `LIMIT`
which propagates out of all recursive calls unhandled (modelled by
`Except.error` and `Except.bind`); statement contents other than the
nesting structure are abstracted away. -/

/-- The `InternalError::Type` kinds relevant here (errortypes.h; only
`LIMIT` is thrown by `checkScope`). -/
inductive InternalErrorType where
  | ast
  | internal
  | limit
  | instantiation
  deriving DecidableEq, Repr

/-- The non-ASAN, non-MinGW recursion ceiling (checkleakautovar.cpp line
299); the build variants use smaller values (300/600), all at most 1000. -/
def recursiveLimit : Nat := 1000

/-- A function body reduced to its statement/branch nesting structure. -/
inductive Block where
  | nil : Block
  | stmt (rest : Block) : Block
  | ifElse (thenB : Block) (hasElse : Bool) (elseB : Block) (rest : Block) : Block
  deriving DecidableEq, Repr

/-- The loop body of `checkScope` after the entry guard: `cnt` is the
already-incremented counter; each branch block re-enters through the guard
with `cnt + 1` (the recursive call passes the incremented local
`recursiveCount`, line 619/625, and the callee increments again, line
301). -/
def checkScopeBody : Block → Nat → Except InternalErrorType Unit
  | .nil, _ => Except.ok ()
  | .stmt rest, cnt => checkScopeBody rest cnt
  | .ifElse thenB hasElse elseB rest, cnt =>
    Except.bind
      (if recursiveLimit < cnt + 1 then Except.error InternalErrorType.limit
       else checkScopeBody thenB (cnt + 1))
      (fun _ =>
        Except.bind
          (if hasElse = true then
             (if recursiveLimit < cnt + 1 then Except.error InternalErrorType.limit
              else checkScopeBody elseB (cnt + 1))
           else Except.ok ())
          (fun _ => checkScopeBody rest cnt))

/-- `CheckLeakAutoVar::checkScope` entry (lines 288-302): increment the
recursion counter; beyond the ceiling, throw the typed `LIMIT` internal
error instead of recursing. -/
def checkScope (b : Block) (recursiveCount : Nat) : Except InternalErrorType Unit :=
  if recursiveLimit < recursiveCount + 1 then Except.error InternalErrorType.limit
  else checkScopeBody b (recursiveCount + 1)

/-- Nesting depth of conditional blocks. -/
def nestDepth : Block → Nat
  | .nil => 0
  | .stmt rest => nestDepth rest
  | .ifElse thenB hasElse elseB rest =>
    max (max (nestDepth thenB + 1) (if hasElse = true then nestDepth elseB + 1 else 0))
        (nestDepth rest)

/-- `CheckLeakAutoVar::check` (checkleakautovar.cpp 166-188): analyze each
function scope in turn, each with a fresh empty state and recursion counter
0.  The loop over `symbolDatabase->functionScopes` has NO try/catch, so a
thrown internal error propagates out of it and the remaining function
scopes are never analyzed (exception propagation modelled by
`Except.bind`). -/
def check : List Block → Except InternalErrorType Unit
  | [] => Except.ok ()
  | b :: rest => Except.bind (checkScope b 0) (fun _ => check rest)

/-- A function body of `n` nested `if` blocks (no `else`, nothing after). -/
def deepBlock : Nat → Block
  | 0 => Block.nil
  | n + 1 => Block.ifElse (deepBlock n) false Block.nil Block.nil

theorem nestDepth_deepBlock (n : Nat) : nestDepth (deepBlock n) = n := by
  induction n with
  | zero => rfl
  | succ k ih =>
    rw [deepBlock, nestDepth, ih]
    simp [nestDepth]

theorem checkScopeBody_ok (b : Block) (cnt : Nat)
    (h : cnt + nestDepth b ≤ recursiveLimit) : checkScopeBody b cnt = Except.ok () := by
  induction b generalizing cnt with
  | nil => rfl
  | stmt rest ih =>
    rw [checkScopeBody]
    exact ih cnt (by simpa [nestDepth] using h)
  | ifElse thenB hasElse elseB rest ih1 ih2 ih3 =>
    simp only [nestDepth] at h
    have hT : nestDepth thenB + 1
        ≤ max (max (nestDepth thenB + 1) (if hasElse = true then nestDepth elseB + 1 else 0))
            (nestDepth rest) :=
      le_trans (le_max_left _ _) (le_max_left _ _)
    have hR : nestDepth rest
        ≤ max (max (nestDepth thenB + 1) (if hasElse = true then nestDepth elseB + 1 else 0))
            (nestDepth rest) :=
      le_max_right _ _
    have hguard : ¬(recursiveLimit < cnt + 1) := by omega
    rw [checkScopeBody, if_neg hguard, ih1 (cnt + 1) (by omega)]
    cases hE : hasElse with
    | true =>
      have hEd : nestDepth elseB + 1
          ≤ max (max (nestDepth thenB + 1) (if hasElse = true then nestDepth elseB + 1 else 0))
              (nestDepth rest) := by
        rw [hE]
        exact le_trans (le_max_right _ _) (le_max_left _ _)
      rw [if_pos rfl, if_neg hguard, ih2 (cnt + 1) (by omega)]
      show checkScopeBody rest cnt = Except.ok ()
      exact ih3 cnt (by omega)
    | false =>
      rw [if_neg (by simp)]
      show checkScopeBody rest cnt = Except.ok ()
      exact ih3 cnt (by omega)

/-- A body whose conditional nesting carries the counter past the ceiling
makes the analysis end in the `LIMIT` error (the error propagates through
every enclosing block). -/
theorem checkScopeBody_error (b : Block) (cnt : Nat)
    (hd : 1 ≤ nestDepth b) (h : recursiveLimit < cnt + nestDepth b) :
    checkScopeBody b cnt = Except.error InternalErrorType.limit := by
  induction b generalizing cnt with
  | nil => simp [nestDepth] at hd
  | stmt rest ih =>
    rw [checkScopeBody]
    exact ih cnt (by simpa [nestDepth] using hd) (by simpa [nestDepth] using h)
  | ifElse thenB hasElse elseB rest ih1 ih2 ih3 =>
    simp only [nestDepth] at h
    by_cases hg : recursiveLimit < cnt + 1
    · rw [checkScopeBody, if_pos hg]
      rfl
    · rw [checkScopeBody, if_neg hg]
      by_cases h1 : recursiveLimit < (cnt + 1) + nestDepth thenB
      · rw [ih1 (cnt + 1) (by omega) (by omega)]
        rfl
      · rw [checkScopeBody_ok thenB (cnt + 1) (by omega)]
        cases hE : hasElse with
        | true =>
          simp only [hE, eq_self_iff_true, if_true] at h ⊢
          by_cases h2 : recursiveLimit < (cnt + 1) + nestDepth elseB
          · rw [if_neg hg, ih2 (cnt + 1) (by omega) (by omega)]
            rfl
          · rw [if_neg hg, checkScopeBody_ok elseB (cnt + 1) (by omega)]
            show checkScopeBody rest cnt = Except.error InternalErrorType.limit
            exact ih3 cnt (by omega) (by omega)
        | false =>
          simp only [hE] at h
          simp only [Bool.false_eq_true, if_false] at h ⊢
          show checkScopeBody rest cnt = Except.error InternalErrorType.limit
          exact ih3 cnt (by omega) (by omega)

/-- A function body of 1000 nested conditionals trips the entry guard at
the innermost level. -/
theorem checkScope_deepBlock_limit :
    checkScope (deepBlock recursiveLimit) 0 = Except.error InternalErrorType.limit := by
  rw [checkScope, if_neg (by decide)]
  exact checkScopeBody_error (deepBlock recursiveLimit) 1
    (by rw [nestDepth_deepBlock]; decide)
    (by rw [nestDepth_deepBlock]; decide)

/-- C8: refuted as stated.  A function body of 1000 nested conditional
blocks makes `checkScope` raise the `LIMIT` internal error — but the error
does NOT abort only that function's analysis: `CheckLeakAutoVar::check`'s
loop over the function scopes (checkleakautovar.cpp lines 179-187) has no
try/catch, so the error escapes the loop and the whole remaining run of
this checker errors; the following function (an empty body, fine when
analyzed on its own) is never analyzed. -/
theorem C8_counterexample :
    checkScope (deepBlock recursiveLimit) 0 = Except.error InternalErrorType.limit ∧
    check [deepBlock recursiveLimit, Block.nil] = Except.error InternalErrorType.limit ∧
    check [Block.nil] = Except.ok () := by
  refine ⟨checkScope_deepBlock_limit, ?_, rfl⟩
  rw [check, checkScope_deepBlock_limit]
  rfl

/-- C8 (amended): the recursion of `checkScope` into nested conditional
blocks is guarded by the compile-time ceiling (1000 in the default build):
a call whose counter has reached the ceiling yields the typed `LIMIT`
internal error instead of recursing; any body whose conditional nesting
stays below the ceiling completes normally (the model is a total function,
so the analysis terminates on every input); but within this checker the
error is NOT caught per function: `check`'s loop has no try/catch, so a
function erroring with `LIMIT` aborts the analysis of all remaining
function scopes in this checker's run as well. -/
theorem C8_recursion_limit_amended
    (b : Block) (cnt : Nat) (f : Block) (rest : List Block)
    (hover : recursiveLimit ≤ cnt)
    (hf : checkScope f 0 = Except.error InternalErrorType.limit) :
    checkScope b cnt = Except.error InternalErrorType.limit ∧
    (∀ b2 cnt2, cnt2 + nestDepth b2 < recursiveLimit → checkScope b2 cnt2 = Except.ok ()) ∧
    check (f :: rest) = Except.error InternalErrorType.limit := by
  refine ⟨?_, ?_, ?_⟩
  · rw [checkScope, if_pos (by omega)]
  · intro b2 cnt2 h2
    rw [checkScope, if_neg (by omega)]
    exact checkScopeBody_ok b2 (cnt2 + 1) (by omega)
  · rw [check, hf]
    rfl

/-- Witness for C8 (amended): at counter 1000 even an empty block errors
with `LIMIT`; a single unnested `if` at counter 0 completes; a run whose
first function nests 1000 conditionals errors as a whole, aborting the
second function too. -/
theorem C8_recursion_limit_amended_witness :
    (checkScope Block.nil 1000 = Except.error InternalErrorType.limit ∧
     checkScope (Block.ifElse Block.nil false Block.nil Block.nil) 0 = Except.ok () ∧
     check [deepBlock recursiveLimit, Block.stmt Block.nil]
       = Except.error InternalErrorType.limit) :=
  ⟨(C8_recursion_limit_amended Block.nil 1000 (deepBlock recursiveLimit)
      [Block.stmt Block.nil] (by decide) checkScope_deepBlock_limit).1,
   (C8_recursion_limit_amended Block.nil 1000 (deepBlock recursiveLimit)
      [Block.stmt Block.nil] (by decide) checkScope_deepBlock_limit).2.1
     (Block.ifElse Block.nil false Block.nil Block.nil) 0 (by decide),
   (C8_recursion_limit_amended Block.nil 1000 (deepBlock recursiveLimit)
      [Block.stmt Block.nil] (by decide) checkScope_deepBlock_limit).2.2⟩
